import Mathlib

/-!
Shallow embedding of `api/v1/views/places_reviews.py` from AirBnB_clone_v3:
the five Flask request handlers for the Review resource (list-by-place,
create, get, update, delete), together with the storage collaborator they
depend on, and proofs of the specification's claims about them.
-/

set_option autoImplicit false

namespace PlacesReviews

/-- A parsed JSON value, as produced by `request.get_json(silent=True)`
when the body parses.  A body that fails to parse is represented by
`none` at the `Option JsonVal` level. -/
inductive JsonVal where
  | null
  | bool (b : Bool)
  | num (n : Int)
  | str (s : String)
  | arr (xs : List JsonVal)
  | obj (kvs : List (String × JsonVal))


/-- Attribute bag: ordered association list from attribute name to value. -/
abbrev AttrMap := List (String × JsonVal)

/-- First-occurrence lookup in an attribute bag. -/
def lookupAttr : AttrMap → String → Option JsonVal
  | [], _ => none
  | (k, v) :: rest, key => if k = key then some v else lookupAttr rest key

/-- `setattr` / dict-entry write: replace the first binding of `key`,
or append a new binding when absent. -/
def setAttr : AttrMap → String → JsonVal → AttrMap
  | [], key, v => [(key, v)]
  | (k, w) :: rest, key, v =>
      if k = key then (key, v) :: rest else (k, w) :: setAttr rest key v

/-- A Review entity: an attribute bag (its `id`, `place_id`, `user_id`,
`text`, timestamps and any extra attributes live in `attrs`). -/
structure Review where
  attrs : AttrMap


/-- `entity.to_json()`: serialize the attribute bag as a JSON object. -/
def Review.to_json (r : Review) : JsonVal := .obj r.attrs

/-- Whether this review's `id` attribute is the string `rid`. -/
def Review.idIs (r : Review) (rid : String) : Bool :=
  match lookupAttr r.attrs "id" with
  | some (.str i) => if i = rid then true else false
  | _ => false

/-- Whether this review's `place_id` attribute is the string `pid`. -/
def Review.placeIdIs (r : Review) (pid : String) : Bool :=
  match lookupAttr r.attrs "place_id" with
  | some (.str p) => if p = pid then true else false
  | _ => false

/-- Modelled from the spec: the external storage collaborator
(`models/engine`, not under `src/`): "key-value-like object store
addressed by (type-name, id); supports get, save, delete, and iteration
of related objects via back-references".  Places and Users only matter
through their ids; Reviews are kept in insertion order; `nextId` drives
the server-side id/timestamp generation. -/
structure Storage where
  places : List String
  users : List String
  reviews : List Review
  nextId : Nat


/-- `storage.get("Place", pid)`: the place, when it exists (represented
by its id). -/
def Storage.getPlace (s : Storage) (pid : String) : Option String :=
  if pid ∈ s.places then some pid else none

/-- `storage.get("User", v)`: `v` is whatever JSON value the body supplied
under `user_id`; only a string id can match a stored user. -/
def Storage.getUser (s : Storage) (v : JsonVal) : Option String :=
  match v with
  | .str uid => if uid ∈ s.users then some uid else none
  | _ => none

/-- First review in the store whose `id` attribute is `rid`. -/
def findReview (rid : String) : List Review → Option Review
  | [] => none
  | r :: rs => if r.idIs rid then some r else findReview rid rs

/-- `storage.get("Review", rid)`. -/
def Storage.getReview (s : Storage) (rid : String) : Option Review :=
  findReview rid s.reviews

/-- Modelled from the spec: `place.reviews`, the storage back-reference —
"ordered sequence of that place's reviews" — taken as the store-order
subsequence of reviews whose `place_id` is the place's id. -/
def Storage.placeReviews (s : Storage) (pid : String) : List Review :=
  s.reviews.filter (fun r => r.placeIdIs pid)

/-- Modelled from the spec: server-side id generation for a new Review
("a generated id", assigned by the storage layer, out of scope). -/
def genId (n : Nat) : String := "rv-" ++ toString n

/-- Modelled from the spec: server-managed timestamps. -/
def genTime (n : Nat) : String := "ts-" ++ toString n

/-- Modelled from the spec: the Review constructor (`models/review.py`,
not under `src/`): "a new Review is constructed from the merged
attributes (body fields plus the path-derived place_id) ... including
server-assigned id/timestamps". -/
def mkReview (kvs : AttrMap) (n : Nat) : Review :=
  ⟨setAttr (setAttr (setAttr kvs "id" (.str (genId n)))
      "created_at" (.str (genTime n))) "updated_at" (.str (genTime n))⟩

/-- `new_review.save()`: persist a freshly constructed review; the
storage counter that feeds id generation advances. -/
def Storage.saveNewReview (s : Storage) (r : Review) : Storage :=
  { s with reviews := s.reviews ++ [r], nextId := s.nextId + 1 }

/-- Replace the first review whose `id` attribute is `rid`
(the in-place mutation of `fetched_obj` followed by `fetched_obj.save()`). -/
def replaceFirst (rid : String) (r' : Review) : List Review → List Review
  | [] => []
  | r :: rs => if r.idIs rid then r' :: rs else r :: replaceFirst rid r' rs

/-- Persist an updated review object. -/
def Storage.replaceReview (s : Storage) (rid : String) (r' : Review) : Storage :=
  { s with reviews := replaceFirst rid r' s.reviews }

/-- Remove the first review whose `id` attribute is `rid`
(`storage.delete(fetched_obj)`). -/
def deleteFirst (rid : String) : List Review → List Review
  | [] => []
  | r :: rs => if r.idIs rid then rs else r :: deleteFirst rid rs

/-- `storage.delete(fetched_obj)` followed by `storage.save()`. -/
def Storage.deleteReview (s : Storage) (rid : String) : Storage :=
  { s with reviews := deleteFirst rid s.reviews }

/-- Raised Python exceptions that escape a handler. -/
inductive PyErr where
  | keyError
  | typeError
  | attributeError


/-- Outcome of one handler call: a normal response, a Flask `abort`
with status and optional message, or an unhandled Python exception.
Each outcome carries the storage state after the call. -/
inductive HResult where
  | resp (status : Nat) (body : JsonVal) (s : Storage)
  | httpErr (status : Nat) (msg : Option String) (s : Storage)
  | pyExn (e : PyErr) (s : Storage)


/-- `GET /places/<place_id>/reviews` (`reviews_by_place`). -/
def reviews_by_place (s : Storage) (place_id : String) : HResult :=
  match s.getPlace place_id with
  | none => .httpErr 404 none s
  | some pid => .resp 200 (.arr ((s.placeReviews pid).map Review.to_json)) s

/-- `POST /places/<place_id>/reviews` (`review_create`).  The checks run
in source order: body parses, place exists, `review_json["user_id"]` is
evaluated (raising `KeyError` on an object without the key and
`TypeError` on a non-object), user exists, then the two — by this point
dead — presence checks, then merge of the path-derived `place_id`,
construction and save. -/
def review_create (s : Storage) (place_id : String) (body : Option JsonVal) : HResult :=
  match body with
  | none => .httpErr 400 (some "Not a JSON") s
  | some review_json =>
    if (s.getPlace place_id).isNone then .httpErr 404 none s
    else
      match review_json with
      | .obj kvs =>
        match lookupAttr kvs "user_id" with
        | none => .pyExn .keyError s
        | some uidv =>
          if (s.getUser uidv).isNone then .httpErr 404 none s
          else if (lookupAttr kvs "user_id").isNone then
            .httpErr 400 (some "Missing user_id")  s
          else if (lookupAttr kvs "text").isNone then
            .httpErr 400 (some "Missing text") s
          else
            let merged := setAttr kvs "place_id" (.str place_id)
            let new_review := mkReview merged s.nextId
            .resp 201 new_review.to_json (s.saveNewReview new_review)
      | _ => .pyExn .typeError s

/-- `GET /reviews/<review_id>` (`review_by_id`). -/
def review_by_id (s : Storage) (review_id : String) : HResult :=
  match s.getReview review_id with
  | none => .httpErr 404 none s
  | some fetched => .resp 200 fetched.to_json s

/-- The protected keys of the update handler. -/
def protectedKeys : List String :=
  ["id", "created_at", "updated_at", "user_id", "place_id"]

/-- The `for key, val in place_json.items()` loop of `review_put`:
`setattr` for every non-protected key, in body order. -/
def applyUpdates (r : Review) : List (String × JsonVal) → Review
  | [] => r
  | (k, v) :: rest =>
      if k ∈ protectedKeys then applyUpdates r rest
      else applyUpdates ⟨setAttr r.attrs k v⟩ rest

/-- `PUT /reviews/<review_id>` (`review_put`).  `place_json.items()` on a
non-object raises `AttributeError`. -/
def review_put (s : Storage) (review_id : String) (body : Option JsonVal) : HResult :=
  match body with
  | none => .httpErr 400 (some "Not a JSON") s
  | some place_json =>
    match s.getReview review_id with
    | none => .httpErr 404 none s
    | some fetched =>
      match place_json with
      | .obj kvs =>
          let updated := applyUpdates fetched kvs
          .resp 200 updated.to_json (s.replaceReview review_id updated)
      | _ => .pyExn .attributeError s

/-- `DELETE /reviews/<review_id>` (`review_delete_by_id`). -/
def review_delete_by_id (s : Storage) (review_id : String) : HResult :=
  match s.getReview review_id with
  | none => .httpErr 404 none s
  | some _ => .resp 200 (.obj []) (s.deleteReview review_id)

/-- Key access on a JSON response body (used only to state properties of
returned JSON documents). -/
def jsonGet (j : JsonVal) (key : String) : Option JsonVal :=
  match j with
  | .obj kvs => lookupAttr kvs key
  | _ => none

/-! ### Example store used to instantiate the theorems -/

/-- A concrete review, present in `sEx`. -/
def rEx : Review :=
  ⟨[("id", .str "r1"), ("place_id", .str "p1"),
    ("user_id", .str "u1"), ("text", .str "great")]⟩

/-- A concrete store with one place, one user and one review. -/
def sEx : Storage := ⟨["p1"], ["u1"], [rEx], 7⟩

/-- The empty store. -/
def sEmpty : Storage := ⟨[], [], [], 0⟩

/-! ### Lemmas about attribute bags -/

theorem lookupAttr_setAttr_self (m : AttrMap) (key : String) (v : JsonVal) :
    lookupAttr (setAttr m key v) key = some v := by
  induction m with
  | nil => simp [setAttr, lookupAttr]
  | cons p rest ih =>
    obtain ⟨k, w⟩ := p
    by_cases h : k = key
    · simp [setAttr, h, lookupAttr]
    · simp [setAttr, h, lookupAttr, ih]

theorem lookupAttr_setAttr_ne (m : AttrMap) (key key2 : String) (v : JsonVal)
    (hne : key ≠ key2) :
    lookupAttr (setAttr m key v) key2 = lookupAttr m key2 := by
  induction m with
  | nil => simp [setAttr, lookupAttr, hne]
  | cons p rest ih =>
    obtain ⟨k, w⟩ := p
    by_cases h : k = key
    · subst h; simp [setAttr, lookupAttr, hne]
    · simp [setAttr, h, lookupAttr, ih]

theorem mkReview_lookup_id (kvs : AttrMap) (n : Nat) :
    lookupAttr (mkReview kvs n).attrs "id" = some (.str (genId n)) := by
  unfold mkReview
  rw [lookupAttr_setAttr_ne _ _ _ _ (by decide),
    lookupAttr_setAttr_ne _ _ _ _ (by decide), lookupAttr_setAttr_self]

theorem mkReview_lookup_other (kvs : AttrMap) (n : Nat) (key : String)
    (h1 : key ≠ "id") (h2 : key ≠ "created_at") (h3 : key ≠ "updated_at") :
    lookupAttr (mkReview kvs n).attrs key = lookupAttr kvs key := by
  unfold mkReview
  rw [lookupAttr_setAttr_ne _ _ _ _ (fun he => h3 he.symm),
    lookupAttr_setAttr_ne _ _ _ _ (fun he => h2 he.symm),
    lookupAttr_setAttr_ne _ _ _ _ (fun he => h1 he.symm)]

theorem mkReview_idIs (kvs : AttrMap) (n : Nat) :
    (mkReview kvs n).idIs (genId n) = true := by
  simp [Review.idIs, mkReview_lookup_id]

/-! ### Lemmas about the update loop -/

theorem applyUpdates_lookup_protected (r : Review) (kvs : List (String × JsonVal))
    (key : String) (hk : key ∈ protectedKeys) :
    lookupAttr (applyUpdates r kvs).attrs key = lookupAttr r.attrs key := by
  induction kvs generalizing r with
  | nil => rfl
  | cons p rest ih =>
    obtain ⟨k, v⟩ := p
    by_cases h : k ∈ protectedKeys
    · simp [applyUpdates, h, ih]
    · have hne : k ≠ key := fun he => h (he ▸ hk)
      simp [applyUpdates, h, ih, lookupAttr_setAttr_ne _ _ _ _ hne]

theorem applyUpdates_lookup_absent (r : Review) (kvs : List (String × JsonVal))
    (key : String) (hk : key ∉ kvs.map Prod.fst) :
    lookupAttr (applyUpdates r kvs).attrs key = lookupAttr r.attrs key := by
  induction kvs generalizing r with
  | nil => rfl
  | cons p rest ih =>
    obtain ⟨k, v⟩ := p
    simp only [List.map_cons, List.mem_cons, not_or] at hk
    obtain ⟨h1, h2⟩ := hk
    by_cases h : k ∈ protectedKeys
    · simp [applyUpdates, h, ih _ h2]
    · simp [applyUpdates, h, ih _ h2,
        lookupAttr_setAttr_ne _ _ _ _ (Ne.symm h1)]

theorem applyUpdates_lookup_set (r : Review) (kvs : List (String × JsonVal))
    (key : String) (v : JsonVal)
    (hnd : (kvs.map Prod.fst).Nodup) (hmem : (key, v) ∈ kvs)
    (hp : key ∉ protectedKeys) :
    lookupAttr (applyUpdates r kvs).attrs key = some v := by
  induction kvs generalizing r with
  | nil => cases hmem
  | cons p rest ih =>
    obtain ⟨k, w⟩ := p
    simp only [List.map_cons, List.nodup_cons] at hnd
    obtain ⟨hknr, hndr⟩ := hnd
    rcases List.mem_cons.mp hmem with he | hm
    · obtain ⟨hk, hw⟩ := Prod.mk.injEq _ _ _ _ ▸ he
      subst hk; subst hw
      rw [show applyUpdates r ((key, v) :: rest) =
          applyUpdates ⟨setAttr r.attrs key v⟩ rest by simp [applyUpdates, hp]]
      rw [applyUpdates_lookup_absent _ _ _ hknr, lookupAttr_setAttr_self]
    · by_cases h : k ∈ protectedKeys
      · simp [applyUpdates, h, ih _ hndr hm]
      · simp [applyUpdates, h, ih _ hndr hm]

/-! ### Lemmas about lookup of reviews in the store -/

theorem findReview_append_of_none (rid : String) (l1 l2 : List Review)
    (h : findReview rid l1 = none) :
    findReview rid (l1 ++ l2) = findReview rid l2 := by
  induction l1 with
  | nil => rfl
  | cons r rs ih =>
    rw [List.cons_append]
    rw [findReview] at h ⊢
    by_cases hr : r.idIs rid = true
    · rw [if_pos hr] at h; cases h
    · rw [if_neg hr] at h ⊢
      exact ih h

theorem findReview_of_countP_zero (rid : String) (l : List Review)
    (h : l.countP (fun r => r.idIs rid) = 0) :
    findReview rid l = none := by
  induction l with
  | nil => rfl
  | cons r rs ih =>
    by_cases hr : r.idIs rid = true
    · simp [List.countP_cons, hr] at h
    · simp only [List.countP_cons, hr] at h
      simp [findReview, hr, ih (by omega)]

theorem findReview_deleteFirst (rid : String) (l : List Review)
    (h : l.countP (fun r => r.idIs rid) ≤ 1) :
    findReview rid (deleteFirst rid l) = none := by
  induction l with
  | nil => rfl
  | cons r rs ih =>
    by_cases hr : r.idIs rid = true
    · have h0 : rs.countP (fun r => r.idIs rid) = 0 := by
        rw [List.countP_cons] at h
        simp only [hr, if_true, if_pos] at h
        omega
      simp [deleteFirst, hr, findReview_of_countP_zero rid rs h0]
    · have h1 : rs.countP (fun r => r.idIs rid) ≤ 1 := by
        rw [List.countP_cons] at h
        simp only [hr] at h
        omega
      simp [deleteFirst, hr, findReview, ih h1]

/-! ### Inversion of the handlers' success paths -/

theorem review_create_resp_inv (s : Storage) (pid : String) (body : Option JsonVal)
    (st : Nat) (j : JsonVal) (s' : Storage)
    (h : review_create s pid body = .resp st j s') :
    ∃ kvs, body = some (.obj kvs) ∧ st = 201 ∧
      j = (mkReview (setAttr kvs "place_id" (.str pid)) s.nextId).to_json ∧
      s' = s.saveNewReview (mkReview (setAttr kvs "place_id" (.str pid)) s.nextId) := by
  cases body with
  | none =>
    simp only [review_create] at h
    exact HResult.noConfusion h
  | some rj =>
    cases rj with
    | obj kvs =>
      refine ⟨kvs, rfl, ?_⟩
      simp only [review_create] at h
      split at h
      · exact HResult.noConfusion h
      · split at h
        · exact HResult.noConfusion h
        · split at h
          · exact HResult.noConfusion h
          · split at h
            · exact HResult.noConfusion h
            · split at h
              · exact HResult.noConfusion h
              · obtain ⟨h1, h2, h3⟩ := HResult.resp.injEq _ _ _ _ _ _ ▸ h
                exact ⟨h1.symm, h2.symm, h3.symm⟩
    | null => simp only [review_create] at h; split at h <;> exact HResult.noConfusion h
    | bool b => simp only [review_create] at h; split at h <;> exact HResult.noConfusion h
    | num n => simp only [review_create] at h; split at h <;> exact HResult.noConfusion h
    | str s2 => simp only [review_create] at h; split at h <;> exact HResult.noConfusion h
    | arr xs => simp only [review_create] at h; split at h <;> exact HResult.noConfusion h

theorem review_put_resp_inv (s : Storage) (rid : String) (body : Option JsonVal)
    (st : Nat) (j : JsonVal) (s' : Storage)
    (h : review_put s rid body = .resp st j s') :
    ∃ kvs fetched, body = some (.obj kvs) ∧ s.getReview rid = some fetched ∧
      st = 200 ∧ j = (applyUpdates fetched kvs).to_json ∧
      s' = s.replaceReview rid (applyUpdates fetched kvs) := by
  cases body with
  | none =>
    simp only [review_put] at h
    exact HResult.noConfusion h
  | some rj =>
    simp only [review_put] at h
    split at h
    · exact HResult.noConfusion h
    · rename_i fetched hf
      cases rj with
      | obj kvs =>
        obtain ⟨h1, h2, h3⟩ := HResult.resp.injEq _ _ _ _ _ _ ▸ h
        exact ⟨kvs, fetched, rfl, hf, h1.symm, h2.symm, h3.symm⟩
      | null => exact HResult.noConfusion h
      | bool b => exact HResult.noConfusion h
      | num n => exact HResult.noConfusion h
      | str s2 => exact HResult.noConfusion h
      | arr xs => exact HResult.noConfusion h

theorem review_delete_resp_inv (s : Storage) (rid : String)
    (st : Nat) (j : JsonVal) (s' : Storage)
    (h : review_delete_by_id s rid = .resp st j s') :
    (s.getReview rid).isSome ∧ st = 200 ∧ j = .obj [] ∧
      s' = s.deleteReview rid := by
  simp only [review_delete_by_id] at h
  split at h
  · exact HResult.noConfusion h
  · rename_i fetched hf
    obtain ⟨h1, h2, h3⟩ := HResult.resp.injEq _ _ _ _ _ _ ▸ h
    exact ⟨by rw [hf]; rfl, h1.symm, h2.symm, h3.symm⟩

/-! ### The claims -/

/-- C1: in `review_create`, once the body parses as a JSON object and the
Place exists, the user-existence lookup `storage.get("User",
review_json["user_id"])` runs before the `"user_id" in review_json`
presence check, so a JSON-object body lacking the `user_id` key faults
with a `KeyError` on the lookup line itself and never reaches the 400
"Missing user_id" response. -/
theorem C1_missing_user_id_faults_on_lookup (s : Storage) (pid : String)
    (kvs : AttrMap) (hp : pid ∈ s.places)
    (hk : lookupAttr kvs "user_id" = none) :
    review_create s pid (some (.obj kvs)) = .pyExn .keyError s ∧
    review_create s pid (some (.obj kvs)) ≠
      .httpErr 400 (some "Missing user_id") s := by
  have hmain : review_create s pid (some (.obj kvs)) = .pyExn .keyError s := by
    simp [review_create, Storage.getPlace, hp, hk]
  exact ⟨hmain, by rw [hmain]; exact fun hc => HResult.noConfusion hc⟩

/-- Witness for C1: a concrete store with an existing place and a body
with `text` but no `user_id`. -/
theorem C1_missing_user_id_faults_on_lookup_witness :
    review_create sEx "p1" (some (.obj [("text", .str "hi")])) =
      .pyExn .keyError sEx ∧
    review_create sEx "p1" (some (.obj [("text", .str "hi")])) ≠
      .httpErr 400 (some "Missing user_id") sEx :=
  C1_missing_user_id_faults_on_lookup sEx "p1" [("text", .str "hi")]
    (by decide) rfl

/-- Counterexample to C2 as stated: with no matching Place and a body
that does not parse as JSON, `review_create` returns 400 "Not a JSON"
(the body-parse check runs first), not 404. -/
theorem C2_counterexample_non_json_body_gets_400 :
    review_create sEmpty "p1" none =
      .httpErr 400 (some "Not a JSON") sEmpty ∧
    review_create sEmpty "p1" none ≠ .httpErr 404 none sEmpty := by
  refine ⟨rfl, fun hc => ?_⟩
  have hc' : HResult.httpErr 400 (some "Not a JSON") sEmpty =
      .httpErr 404 none sEmpty := hc
  obtain ⟨h1, -, -⟩ := HResult.httpErr.injEq _ _ _ _ _ _ ▸ hc'
  exact absurd h1 (by decide)

/-- C2 (amended): for every request creating a review under a place id
for which no Place exists, and whose body parses as JSON, the operation
returns 404 regardless of the parsed body's content. -/
theorem C2_nonexistent_place_404 (s : Storage) (pid : String) (v : JsonVal)
    (hp : pid ∉ s.places) :
    review_create s pid (some v) = .httpErr 404 none s := by
  simp [review_create, Storage.getPlace, hp]

/-- Witness for the amended C2: empty store, place absent, array body. -/
theorem C2_nonexistent_place_404_witness :
    review_create sEmpty "p1" (some (.arr [])) = .httpErr 404 none sEmpty :=
  C2_nonexistent_place_404 sEmpty "p1" (.arr []) (by decide)

/-- C3: for every existing review and JSON-object body, `review_put`
overwrites the review's attribute for each body key outside the
protected set with the supplied value, and leaves the attributes named
by the protected keys unchanged even when those keys appear in the
body. -/
theorem C3_update_filters_protected_keys (s : Storage) (rid : String)
    (r : Review) (kvs : AttrMap)
    (hr : s.getReview rid = some r) (hnd : (kvs.map Prod.fst).Nodup) :
    ∃ r', review_put s rid (some (.obj kvs)) =
        .resp 200 r'.to_json (s.replaceReview rid r') ∧
      (∀ k v, (k, v) ∈ kvs → k ∉ protectedKeys →
        lookupAttr r'.attrs k = some v) ∧
      (∀ k, k ∈ protectedKeys →
        lookupAttr r'.attrs k = lookupAttr r.attrs k) := by
  refine ⟨applyUpdates r kvs, ?_, ?_, ?_⟩
  · simp only [review_put, hr]
  · exact fun k v hm hpk => applyUpdates_lookup_set r kvs k v hnd hm hpk
  · exact fun k hk => applyUpdates_lookup_protected r kvs k hk

/-- Witness for C3: the spec's own example body
`{"text": "updated", "id": "ignored", "place_id": "ignored"}` against
the concrete store. -/
theorem C3_update_filters_protected_keys_witness :
    ∃ r', review_put sEx "r1" (some (.obj [("text", .str "updated"),
        ("id", .str "ignored"), ("place_id", .str "ignored")])) =
        .resp 200 r'.to_json (sEx.replaceReview "r1" r') ∧
      (∀ k v, (k, v) ∈ ([("text", .str "updated"), ("id", .str "ignored"),
        ("place_id", .str "ignored")] : AttrMap) → k ∉ protectedKeys →
        lookupAttr r'.attrs k = some v) ∧
      (∀ k, k ∈ protectedKeys →
        lookupAttr r'.attrs k = lookupAttr rEx.attrs k) :=
  C3_update_filters_protected_keys sEx "r1" rEx
    [("text", .str "updated"), ("id", .str "ignored"),
     ("place_id", .str "ignored")] rfl (by decide)

/-- C4: round-trip — for every successful create (under the storage
layer's guarantee that the generated id is not already in the store),
fetching a review by the `id` field of the JSON returned by the create
yields a 200 response whose JSON body is identical to the one returned
by the create, with no intervening mutation. -/
theorem C4_create_then_get_roundtrip (s : Storage) (pid : String)
    (body : Option JsonVal) (st : Nat) (j : JsonVal) (s' : Storage)
    (hfresh : findReview (genId s.nextId) s.reviews = none)
    (h : review_create s pid body = .resp st j s') :
    ∃ rid, jsonGet j "id" = some (.str rid) ∧
      review_by_id s' rid = .resp 200 j s' := by
  obtain ⟨kvs, hbody, hst, hj, hs'⟩ := review_create_resp_inv s pid body st j s' h
  refine ⟨genId s.nextId, ?_, ?_⟩
  · rw [hj]
    simp [jsonGet, Review.to_json, mkReview_lookup_id]
  · rw [hs', hj]
    simp only [review_by_id, Storage.getReview, Storage.saveNewReview]
    rw [findReview_append_of_none _ _ _ hfresh]
    simp [findReview, mkReview_idIs]

/-- Witness for C4: a concrete create against `sEx` followed by a get of
the returned id. -/
theorem C4_create_then_get_roundtrip_witness :
    ∃ rid, jsonGet (mkReview (setAttr [("user_id", JsonVal.str "u1"),
        ("text", JsonVal.str "great")] "place_id" (.str "p1")) 7).to_json
        "id" = some (.str rid) ∧
      review_by_id (sEx.saveNewReview (mkReview
        (setAttr [("user_id", JsonVal.str "u1"),
          ("text", JsonVal.str "great")] "place_id" (.str "p1")) 7)) rid =
      .resp 200 (mkReview (setAttr [("user_id", JsonVal.str "u1"),
        ("text", JsonVal.str "great")] "place_id" (.str "p1")) 7).to_json
        (sEx.saveNewReview (mkReview (setAttr [("user_id", JsonVal.str "u1"),
          ("text", JsonVal.str "great")] "place_id" (.str "p1")) 7)) :=
  C4_create_then_get_roundtrip sEx "p1"
    (some (.obj [("user_id", .str "u1"), ("text", .str "great")])) 201
    (mkReview (setAttr [("user_id", JsonVal.str "u1"),
      ("text", JsonVal.str "great")] "place_id" (.str "p1")) 7).to_json
    (sEx.saveNewReview (mkReview (setAttr [("user_id", JsonVal.str "u1"),
      ("text", JsonVal.str "great")] "place_id" (.str "p1")) 7))
    rfl rfl

/-- C5: after a successful delete of a review id (given the storage
layer's guarantee that ids in the store are unique), the handler has
returned an empty JSON object with status 200 and removed the review,
and a subsequent get of the same id returns 404. -/
theorem C5_delete_then_get_404 (s : Storage) (rid : String)
    (st : Nat) (b : JsonVal) (s' : Storage)
    (huniq : s.reviews.countP (fun r => r.idIs rid) ≤ 1)
    (h : review_delete_by_id s rid = .resp st b s') :
    st = 200 ∧ b = .obj [] ∧ s' = s.deleteReview rid ∧
      review_by_id s' rid = .httpErr 404 none s' := by
  obtain ⟨hsome, hst, hb, hs'⟩ := review_delete_resp_inv s rid st b s' h
  refine ⟨hst, hb, hs', ?_⟩
  rw [hs']
  simp only [review_by_id, Storage.getReview, Storage.deleteReview]
  rw [findReview_deleteFirst rid s.reviews huniq]

/-- Witness for C5: deleting the one review of `sEx` and fetching it again. -/
theorem C5_delete_then_get_404_witness :
    (200 : Nat) = 200 ∧ JsonVal.obj [] = .obj [] ∧
      sEx.deleteReview "r1" = sEx.deleteReview "r1" ∧
      review_by_id (sEx.deleteReview "r1") "r1" =
        .httpErr 404 none (sEx.deleteReview "r1") :=
  C5_delete_then_get_404 sEx "r1" 200 (.obj []) (sEx.deleteReview "r1")
    (by decide) rfl

/-- C6: a create with an existing place, an existing user and a body
containing `text` succeeds with 201 and returns a JSON body carrying
the submitted `text`, the server-generated `id`, and `place_id` equal
to the path parameter. -/
theorem C6_create_success_fields (s : Storage) (pid : String)
    (kvs : AttrMap) (u : String) (t : JsonVal)
    (hp : pid ∈ s.places)
    (hu : lookupAttr kvs "user_id" = some (.str u)) (hue : u ∈ s.users)
    (ht : lookupAttr kvs "text" = some t) :
    ∃ j s', review_create s pid (some (.obj kvs)) = .resp 201 j s' ∧
      jsonGet j "text" = some t ∧
      jsonGet j "id" = some (.str (genId s.nextId)) ∧
      jsonGet j "place_id" = some (.str pid) := by
  refine ⟨(mkReview (setAttr kvs "place_id" (.str pid)) s.nextId).to_json,
    s.saveNewReview (mkReview (setAttr kvs "place_id" (.str pid)) s.nextId),
    ?_, ?_, ?_, ?_⟩
  · simp [review_create, Storage.getPlace, Storage.getUser, hp, hu, hue, ht]
  · simp only [jsonGet, Review.to_json]
    rw [mkReview_lookup_other _ _ _ (by decide) (by decide) (by decide),
      lookupAttr_setAttr_ne _ _ _ _ (by decide), ht]
  · simp [jsonGet, Review.to_json, mkReview_lookup_id]
  · simp only [jsonGet, Review.to_json]
    rw [mkReview_lookup_other _ _ _ (by decide) (by decide) (by decide),
      lookupAttr_setAttr_self]

/-- Witness for C6: creating a review with `text: "great"` for the
concrete place `p1` and user `u1`. -/
theorem C6_create_success_fields_witness :
    ∃ j s', review_create sEx "p1"
        (some (.obj [("user_id", .str "u1"), ("text", .str "great")])) =
        .resp 201 j s' ∧
      jsonGet j "text" = some (.str "great") ∧
      jsonGet j "id" = some (.str (genId sEx.nextId)) ∧
      jsonGet j "place_id" = some (.str "p1") :=
  C6_create_success_fields sEx "p1"
    [("user_id", .str "u1"), ("text", .str "great")] "u1" (.str "great")
    (by decide) rfl (by decide) rfl

/-- C7: listing reviews returns 404 when no matching Place exists, and
otherwise returns, with status 200 and an unchanged store, the JSON
array of the place's reviews in store order, each serialized with
`to_json` (in particular `[]` when the place has no reviews). -/
theorem C7_list_reviews_by_place (s : Storage) (pid : String) :
    (pid ∉ s.places → reviews_by_place s pid = .httpErr 404 none s) ∧
    (pid ∈ s.places → reviews_by_place s pid =
      .resp 200 (.arr ((s.placeReviews pid).map Review.to_json)) s) := by
  constructor
  · intro hp; simp [reviews_by_place, Storage.getPlace, hp]
  · intro hp; simp [reviews_by_place, Storage.getPlace, hp]

/-- Witness for C7: a missing place gives 404; the concrete place `p1`
gives the serialized array of its reviews. -/
theorem C7_list_reviews_by_place_witness :
    reviews_by_place sEx "nope" = .httpErr 404 none sEx ∧
    reviews_by_place sEx "p1" =
      .resp 200 (.arr ((sEx.placeReviews "p1").map Review.to_json)) sEx :=
  ⟨(C7_list_reviews_by_place sEx "nope").1 (by decide),
   (C7_list_reviews_by_place sEx "p1").2 (by decide)⟩

/-- C8: atomicity on error — whenever any of the five handlers
terminates in an `abort` (an HTTP error response), the storage state it
leaves behind is the state it started from: no save or delete reached
the storage layer. -/
theorem C8_error_leaves_store_unchanged (s : Storage) (pid rid : String)
    (body : Option JsonVal) (c : Nat) (m : Option String) (s' : Storage) :
    (reviews_by_place s pid = .httpErr c m s' → s' = s) ∧
    (review_create s pid body = .httpErr c m s' → s' = s) ∧
    (review_by_id s rid = .httpErr c m s' → s' = s) ∧
    (review_put s rid body = .httpErr c m s' → s' = s) ∧
    (review_delete_by_id s rid = .httpErr c m s' → s' = s) := by
  refine ⟨fun h => ?_, fun h => ?_, fun h => ?_, fun h => ?_, fun h => ?_⟩
  · simp only [reviews_by_place] at h
    repeat' split at h
    all_goals
      first
        | exact HResult.noConfusion h
        | exact ((HResult.httpErr.injEq _ _ _ _ _ _ ▸ h).2.2).symm
  · cases body with
    | none =>
      simp only [review_create] at h
      exact ((HResult.httpErr.injEq _ _ _ _ _ _ ▸ h).2.2).symm
    | some rj =>
      simp only [review_create] at h
      repeat' split at h
      all_goals
        first
          | exact HResult.noConfusion h
          | exact ((HResult.httpErr.injEq _ _ _ _ _ _ ▸ h).2.2).symm
  · simp only [review_by_id] at h
    repeat' split at h
    all_goals
      first
        | exact HResult.noConfusion h
        | exact ((HResult.httpErr.injEq _ _ _ _ _ _ ▸ h).2.2).symm
  · cases body with
    | none =>
      simp only [review_put] at h
      exact ((HResult.httpErr.injEq _ _ _ _ _ _ ▸ h).2.2).symm
    | some rj =>
      simp only [review_put] at h
      repeat' split at h
      all_goals
        first
          | exact HResult.noConfusion h
          | exact ((HResult.httpErr.injEq _ _ _ _ _ _ ▸ h).2.2).symm
  · simp only [review_delete_by_id] at h
    repeat' split at h
    all_goals
      first
        | exact HResult.noConfusion h
        | exact ((HResult.httpErr.injEq _ _ _ _ _ _ ▸ h).2.2).symm

/-- Witness for C8: three concrete aborts (404 on listing for a missing
place, 400 on create with an unparsable body, 404 on a missing review)
leave the concrete stores unchanged. -/
theorem C8_error_leaves_store_unchanged_witness :
    sEmpty = sEmpty ∧ sEx = sEx :=
  ⟨(C8_error_leaves_store_unchanged sEmpty "p1" "r1" none 404 none
      sEmpty).1 rfl,
   (C8_error_leaves_store_unchanged sEx "p1" "zzz" none 400
      (some "Not a JSON") sEx).2.2.2.1 rfl⟩

/-- C9 (implicit): a body that parses as JSON but is not a JSON object
(an array, number, string, boolean or null) makes `review_create` raise
on the `review_json["user_id"]` subscript and `review_put` raise on
`place_json.items()` — an unhandled exception, not a 400 "Not a JSON"
response; the not-JSON check only rejects bodies that fail to parse. -/
theorem C9_non_object_body_raises (s : Storage) (pid rid : String)
    (v : JsonVal) (hobj : ∀ kvs, v ≠ .obj kvs)
    (hp : pid ∈ s.places) (hr : (s.getReview rid).isSome = true) :
    review_create s pid (some v) = .pyExn .typeError s ∧
    review_put s rid (some v) = .pyExn .attributeError s := by
  obtain ⟨fetched, hf⟩ := Option.isSome_iff_exists.mp hr
  have hp' : (s.getPlace pid).isNone = false := by
    simp [Storage.getPlace, hp]
  constructor
  · cases v with
    | null => simp [review_create, hp']
    | bool b => simp [review_create, hp']
    | num n => simp [review_create, hp']
    | str s2 => simp [review_create, hp']
    | arr xs => simp [review_create, hp']
    | obj kvs => exact absurd rfl (hobj kvs)
  · cases v with
    | null => simp [review_put, hf]
    | bool b => simp [review_put, hf]
    | num n => simp [review_put, hf]
    | str s2 => simp [review_put, hf]
    | arr xs => simp [review_put, hf]
    | obj kvs => exact absurd rfl (hobj kvs)

/-- Witness for C9: the JSON array `[]` as body for both handlers. -/
theorem C9_non_object_body_raises_witness :
    review_create sEx "p1" (some (.arr [])) = .pyExn .typeError sEx ∧
    review_put sEx "r1" (some (.arr [])) = .pyExn .attributeError sEx :=
  C9_non_object_body_raises sEx "p1" "r1" (.arr [])
    (fun kvs h => JsonVal.noConfusion h) (by decide) rfl

/-- C10 (implicit): on every successful create the path-derived place id
has overwritten any `place_id` the client supplied in the body: the
review appended to the store — and the returned JSON — carry `place_id`
equal to the path parameter. -/
theorem C10_path_place_id_overwrites_body (s : Storage) (pid : String)
    (body : Option JsonVal) (st : Nat) (j : JsonVal) (s' : Storage)
    (h : review_create s pid body = .resp st j s') :
    ∃ r, s'.reviews = s.reviews ++ [r] ∧
      lookupAttr r.attrs "place_id" = some (.str pid) ∧
      jsonGet j "place_id" = some (.str pid) := by
  obtain ⟨kvs, hbody, hst, hj, hs'⟩ := review_create_resp_inv s pid body st j s' h
  refine ⟨mkReview (setAttr kvs "place_id" (.str pid)) s.nextId, ?_, ?_, ?_⟩
  · rw [hs']; rfl
  · rw [mkReview_lookup_other _ _ _ (by decide) (by decide) (by decide),
      lookupAttr_setAttr_self]
  · rw [hj]
    simp only [jsonGet, Review.to_json]
    rw [mkReview_lookup_other _ _ _ (by decide) (by decide) (by decide),
      lookupAttr_setAttr_self]

/-- Witness for C10: a body carrying a conflicting `place_id` of
`"EVIL"`; the stored and returned `place_id` is the path's `"p1"`. -/
theorem C10_path_place_id_overwrites_body_witness :
    ∃ r, (sEx.saveNewReview (mkReview
        (setAttr [("user_id", JsonVal.str "u1"), ("text", JsonVal.str "t"),
          ("place_id", JsonVal.str "EVIL")] "place_id" (.str "p1")) 7)).reviews =
        sEx.reviews ++ [r] ∧
      lookupAttr r.attrs "place_id" = some (.str "p1") ∧
      jsonGet (mkReview (setAttr [("user_id", JsonVal.str "u1"),
        ("text", JsonVal.str "t"), ("place_id", JsonVal.str "EVIL")]
        "place_id" (.str "p1")) 7).to_json "place_id" = some (.str "p1") :=
  C10_path_place_id_overwrites_body sEx "p1"
    (some (.obj [("user_id", .str "u1"), ("text", .str "t"),
      ("place_id", .str "EVIL")])) 201
    (mkReview (setAttr [("user_id", JsonVal.str "u1"),
      ("text", JsonVal.str "t"), ("place_id", JsonVal.str "EVIL")]
      "place_id" (.str "p1")) 7).to_json
    (sEx.saveNewReview (mkReview (setAttr [("user_id", JsonVal.str "u1"),
      ("text", JsonVal.str "t"), ("place_id", JsonVal.str "EVIL")]
      "place_id" (.str "p1")) 7))
    rfl

end PlacesReviews
